import Mathlib

/-
Verification of the batching ingestion pipeline and the query orchestrator
of the rag-iep-system repository, as a shallow embedding in Lean 4.

Source files embedded here:
  services/embedder/main.py    (BatchProcessor: run, process_batch, save_vector_batch, stop)
  services/rag-api/main.py     (query_rag and its generate sub-routine)
  services/doc-parser/main.py  (DocumentParser: detect_language, chunk_text, process_document)

Machine floats of the Python code are modelled as rationals; external
collaborators (embedding oracle, vector-search oracle, metadata store,
generation oracle, storage upload, json serialization, the langchain text
splitter, langdetect, hashlib md5) are parameters of the embedded functions,
exactly at the call boundaries where the source invokes them.
-/

namespace RagIep

/-- Embedding vector: the values field of one oracle response item. -/
abbrev Vec := List ℚ

/-- One parsed-chunk message, as built by doc-parser process_document and
consumed from the queue by the embedder (fields docId, chunkId, sourceUri,
text, language, chunkIndex, totalChunks). -/
structure ChunkData where
  docId : String
  chunkId : String
  sourceUri : String
  text : String
  language : String
  chunkIndex : Nat
  totalChunks : Nat
deriving DecidableEq

/-- Metadata dict of one staged vector record (embedder main.py lines 106-111). -/
structure VecMetadata where
  docId : String
  sourceUri : String
  language : String
  chunkIndex : Nat
deriving DecidableEq

/-- One staged vector record (embedder main.py lines 103-112). -/
structure VectorRecord where
  id : String
  embedding : Vec
  metadata : VecMetadata
deriving DecidableEq

/-- BATCH_SIZE constant of embedder main.py. -/
def BATCH_SIZE : Nat := 100

/-- BATCH_TIMEOUT constant of embedder main.py, in seconds. -/
def BATCH_TIMEOUT : ℚ := 10

namespace BatchProcessor

/-- The record built for one (msg, embedding) pair inside process_batch. -/
def mkRecord (msg : ChunkData) (e : Vec) : VectorRecord :=
  { id := msg.chunkId
    embedding := e
    metadata :=
      { docId := msg.docId
        sourceUri := msg.sourceUri
        language := msg.language
        chunkIndex := msg.chunkIndex } }

/-- The vector_data list of process_batch: Python zip of messages with the
oracle response, mapped to records. Python zip truncates to the shorter
list, and so does List.zip. -/
def mkVectorData (messages : List ChunkData) (embeddings : List Vec) : List VectorRecord :=
  (messages.zip embeddings).map fun p => mkRecord p.1 p.2

/-- The JSONL content built by save_vector_batch: one serialized record per
line. The json.dumps serializer is a parameter (Python stdlib). -/
def save_vector_batch (dumps : VectorRecord → String) (vector_data : List VectorRecord) : String :=
  String.intercalate "\n" (vector_data.map dumps)

/-- process_batch of embedder main.py. The embedding oracle and the storage
upload are parameters; an Except.error models a raised exception, which the
try block of process_batch catches, producing no staged output. The result
is the staged batch content: none when nothing was staged, some records when
one file holding exactly those records was uploaded. -/
def process_batch (oracle : List String → Except String (List Vec))
    (upload : List VectorRecord → Except String Unit)
    (messages : List ChunkData) : Option (List VectorRecord) :=
  match oracle (messages.map ChunkData.text) with
  | Except.error _ => none
  | Except.ok embeddings =>
    let vector_data := mkVectorData messages embeddings
    match upload vector_data with
    | Except.error _ => none
    | Except.ok _ => some vector_data

end BatchProcessor

/-- One observed outcome of an awaited queue get inside the collection loop
of BatchProcessor.run: either an item arrives after dt seconds of waiting,
or the wait_for call raises TimeoutError after its full timeout. -/
inductive GetEv where
  | item (dt : ℚ) (m : ChunkData)
  | timeout
deriving DecidableEq

namespace BatchProcessor

/-- The timeout handed to asyncio.wait_for at elapsed time t since the batch
window opened: max(0.1, BATCH_TIMEOUT - elapsed) (embedder main.py lines 73-76). -/
def waitTimeout (t : ℚ) : ℚ := max (1/10) (BATCH_TIMEOUT - t)

/-- The inner collection loop of BatchProcessor.run (lines 67-80): starting
from elapsed time t and an already collected batch, consume queue events
until the batch reaches BATCH_SIZE, the elapsed time reaches BATCH_TIMEOUT,
or a get times out. Returns the collected batch and the elapsed time at
which the loop exits (the moment the flush decision is taken). -/
def collect : List GetEv → ℚ → List ChunkData → List ChunkData × ℚ
  | evs, t, batch =>
    if batch.length < BATCH_SIZE ∧ t < BATCH_TIMEOUT then
      match evs with
      | [] => (batch, t)
      | GetEv.timeout :: _ => (batch, t + waitTimeout t)
      | GetEv.item dt m :: rest => collect rest (t + dt) (batch ++ [m])
    else (batch, t)

/-- A queue-event trace is valid from elapsed time t when every item event
takes a nonnegative wait no longer than the wait_for timeout in force at
that moment (an item cannot be delivered after the get has timed out). -/
def validTrace : List GetEv → ℚ → Bool
  | [], _ => true
  | GetEv.timeout :: _, _ => true
  | GetEv.item dt _ :: rest, t =>
    decide (0 ≤ dt) && decide (dt ≤ waitTimeout t) && validTrace rest (t + dt)

/-- Arrival time of the first (oldest) item the collection window consumes,
measured from the window opening. -/
def firstItemTime : List GetEv → ℚ → Option ℚ
  | [], _ => none
  | GetEv.timeout :: _, _ => none
  | GetEv.item dt _ :: _, t => some (t + dt)

/-- One pass of the outer loop body of BatchProcessor.run (lines 67-83):
collect a batch for this window, then flush it to process_batch only when
it is non-empty (the guard if batch: on line 82). none means no flush. -/
def flushedBatch (evs : List GetEv) : Option (List ChunkData) :=
  let b := (collect evs 0 []).1
  if b.isEmpty then none else some b

/-- Elapsed time, from window opening, at which the flush decision for the
window is taken. -/
def flushTime (evs : List GetEv) : ℚ := (collect evs 0 []).2

end BatchProcessor

/-- Scheduler-visible state of the BatchProcessor: the pending queue and the
running flag (embedder main.py lines 55-56). -/
structure ProcState where
  queue : List ChunkData
  running : Bool
deriving DecidableEq

namespace BatchProcessor

/-- BatchProcessor.stop (embedder main.py lines 148-149): it only clears the
running flag. -/
def stop (s : ProcState) : ProcState := { s with running := false }

/-- Events interleaved on the asyncio event loop: a producer enqueues a
message (handle_message line 163), lifespan shutdown calls stop (line 49),
or the run loop executes one full iteration of its while body. One
iteration first re-checks the running flag (line 64); while running it
drains up to BATCH_SIZE queued items into a batch and flushes the batch
when non-empty. -/
inductive Action where
  | enqueue (m : ChunkData)
  | stopSignal
  | iterate
deriving DecidableEq

/-- Small-step semantics of one interleaved action on (state, flushed
batches so far). -/
def step : ProcState × List (List ChunkData) → Action → ProcState × List (List ChunkData)
  | (s, out), Action.enqueue m => ({ s with queue := s.queue ++ [m] }, out)
  | (s, out), Action.stopSignal => (stop s, out)
  | (s, out), Action.iterate =>
    if s.running then
      let batch := s.queue.take BATCH_SIZE
      ({ s with queue := s.queue.drop BATCH_SIZE },
        out ++ (if batch.isEmpty then [] else [batch]))
    else (s, out)

/-- Run a whole interleaving from the initial state (empty queue, running). -/
def runSchedule (acts : List Action) : ProcState × List (List ChunkData) :=
  acts.foldl step ({ queue := [], running := true }, [])

end BatchProcessor

/-- One nearest neighbor returned by the vector-search oracle
(find_neighbors, rag-api main.py lines 217-221). -/
structure Neighbor where
  id : String
  distance : ℚ
deriving DecidableEq

/-- One chunk metadata document of the Firestore chunks collection, as
written by doc-parser and read back during hydration. -/
structure StoredChunk where
  docId : String
  text : String
  sourceUri : String
  language : String
  chunkIndex : Nat
deriving DecidableEq

/-- One hydrated chunk_data dict after line 247 of rag-api main.py added the
relevance_score key. -/
structure RetrievedChunk where
  data : StoredChunk
  relevance_score : ℚ
deriving DecidableEq

/-- One entry of the sources list of the terminal event (rag-api main.py
lines 293-296). -/
structure SourceEntry where
  uri : String
  score : ℚ
deriving DecidableEq

/-- The prompt template document: version and template text. -/
structure PromptTemplate where
  version : String
  template : String
deriving DecidableEq

/-- One server-sent event of the answer stream: a text fragment
(data: {chunk: ...}) or the terminal done event with sources and prompt
version. The source emits no other event shape. -/
inductive Event where
  | chunk (text : String)
  | final (sources : List SourceEntry) (prompt_version : String)
deriving DecidableEq

/-- One item of the generation oracle response stream as iterated by the
for loop on line 285: a fragment carrying text, or an exception raised
while iterating the stream. -/
inductive GenItem where
  | piece (text : String)
  | raiseEv
deriving DecidableEq

/-- The query request body (rag-api main.py lines 83-86). -/
structure QueryRequest where
  question : String
  max_results : Nat
  temperature : ℚ
deriving DecidableEq

/-- The non-streaming QueryResponse body (rag-api main.py lines 89-92). -/
structure QueryResponse where
  answer : String
  sources : List SourceEntry
  prompt_version : String
deriving DecidableEq

/-- Observable outcome of one /query request: either an immediate
QueryResponse (the zero-neighbor short circuit) or a streamed sequence of
events, with a flag telling whether the generator ran to completion (true)
or was aborted by an exception raised mid-iteration (false). -/
inductive QueryOutcome where
  | response (r : QueryResponse)
  | streamed (events : List Event) (completed : Bool)
deriving DecidableEq

/-- The fixed answer of the zero-neighbor short circuit (line 231). -/
def noRelevantInfoAnswer : String :=
  "I couldn\x27t find any relevant information in the knowledge base for your question."

/-- The hydration loop (rag-api main.py lines 238-248): for each neighbor in
rank order, look its id up in the chunk store; keep a hit with
relevance_score = 1 - distance, silently skip a miss. -/
def retrieve_chunks (store : String → Option StoredChunk) (neighbors : List Neighbor) :
    List RetrievedChunk :=
  neighbors.filterMap fun nb =>
    (store nb.id).map fun d => { data := d, relevance_score := 1 - nb.distance }

/-- The context string (rag-api main.py lines 253-255): Source-tagged blocks
in chunk order joined by a blank line. -/
def build_context (chunks : List RetrievedChunk) : String :=
  String.intercalate "\n\n"
    (chunks.map fun c => "[Source: " ++ c.data.sourceUri ++ "]\n" ++ c.data.text)

/-- The sources list of the terminal event (lines 293-296). -/
def final_sources (chunks : List RetrievedChunk) : List SourceEntry :=
  chunks.map fun c => { uri := c.data.sourceUri, score := c.relevance_score }

/-- The generate sub-routine of query_rag (lines 272-299) applied to one
generation-oracle response stream: forward each fragment whose text is
non-empty (the if chunk.text: guard on line 286), then emit the terminal
done event. An exception raised while iterating the stream propagates out
of the generator: iteration stops and nothing further is emitted. Returns
the emitted events and whether the terminal event was reached. -/
def generate_events : List GenItem → List SourceEntry → String → List Event × Bool
  | [], sources, ver => ([Event.final sources ver], true)
  | GenItem.raiseEv :: _, _, _ => ([], false)
  | GenItem.piece t :: rest, sources, ver =>
    let p := generate_events rest sources ver
    ((if t = "" then p.1 else Event.chunk t :: p.1), p.2)

/-- query_rag (rag-api main.py lines 193-317). The embedding oracle, the
vector-search oracle, the chunk metadata store, the str.format substitution
of the template, and the generation oracle are parameters at exactly the
call boundaries of the source. -/
def query_rag
    (embed : String → Vec)
    (search : Vec → Nat → List Neighbor)
    (store : String → Option StoredChunk)
    (tmpl : PromptTemplate)
    (format : String → String → String → String)
    (gen : String → ℚ → List GenItem)
    (req : QueryRequest) : QueryOutcome :=
  let question_embedding := embed req.question
  let neighbors := search question_embedding req.max_results
  if neighbors.isEmpty then
    QueryOutcome.response
      { answer := noRelevantInfoAnswer, sources := [], prompt_version := tmpl.version }
  else
    let chunks := retrieve_chunks store neighbors
    let context := build_context chunks
    let prompt := format tmpl.template context req.question
    let p := generate_events (gen prompt req.temperature) (final_sources chunks) tmpl.version
    QueryOutcome.streamed p.1 p.2

/-- CHUNK_SIZES lookup with default fallback (doc-parser main.py lines
31-36 and 95). -/
def chunkSizeFor (language : String) : Nat :=
  if language = "en" then 400
  else if language = "fr" then 200
  else if language = "es" then 300
  else 400

/-- DocumentParser.detect_language (doc-parser main.py lines 86-91): run the
langdetect detector (a parameter; none models a raised exception) on the
first 1000 characters, falling back to en. -/
def detect_language (det : String → Option String) (text : String) : String :=
  (det (text.take 1000)).getD "en"

/-- DocumentParser.chunk_text (doc-parser main.py lines 93-104): pick the
language chunk size and run the langchain RecursiveCharacterTextSplitter (a
parameter taking chunk_size, chunk_overlap and the text) with overlap 50. -/
def chunk_text (split_text : Nat → Nat → String → List String)
    (text language : String) : List String :=
  split_text (chunkSizeFor language) 50 text

/-- The chunk-stamping loop of DocumentParser.process_document (doc-parser
main.py lines 122-145): detect the language of the full text, split it, and
stamp each piece with docId = md5hex of bucket/blob, chunkId = docId_idx,
the gs:// source uri, zero-based chunkIndex and totalChunks. -/
def process_document (split_text : Nat → Nat → String → List String)
    (det : String → Option String) (md5hex : String → String)
    (bucket_name blob_name full_text : String) : List ChunkData :=
  let language := detect_language det full_text
  let chunks := chunk_text split_text full_text language
  let doc_id := md5hex (bucket_name ++ "/" ++ blob_name)
  chunks.enum.map fun p =>
    { docId := doc_id
      chunkId := doc_id ++ "_" ++ toString p.1
      sourceUri := "gs://" ++ bucket_name ++ "/" ++ blob_name
      text := p.2
      language := language
      chunkIndex := p.1
      totalChunks := chunks.length }

/-- A fixed sample chunk used by concrete witnesses. -/
def chunkA : ChunkData :=
  { docId := "d", chunkId := "d_0", sourceUri := "gs://b/o", text := "alpha"
    language := "en", chunkIndex := 0, totalChunks := 2 }

/-- A second fixed sample chunk used by concrete witnesses. -/
def chunkB : ChunkData :=
  { docId := "d", chunkId := "d_1", sourceUri := "gs://b/o", text := "beta"
    language := "en", chunkIndex := 1, totalChunks := 2 }

/-- A concrete queue-event trace in which the third get exploits the
0.1-second floor of the wait_for timeout: items arrive at elapsed times 0,
9.95 and 10.05 seconds, all within their respective wait_for windows. -/
def lateTrace : List GetEv :=
  [GetEv.item 0 chunkA, GetEv.item (199/20) chunkB, GetEv.item (1/10) chunkA]

namespace BatchProcessor

/-- The batch collected by one window never exceeds BATCH_SIZE items,
whatever the queue delivers, provided it starts below the bound. -/
lemma collect_fst_length_le (evs : List GetEv) :
    ∀ (t : ℚ) (batch : List ChunkData), batch.length ≤ BATCH_SIZE →
      ((collect evs t batch).1).length ≤ BATCH_SIZE := by
  induction evs with
  | nil => intro t batch h; simpa [collect] using h
  | cons ev rest ih =>
    intro t batch h
    cases ev with
    | timeout =>
      rw [collect]
      split
      · exact h
      · exact h
    | item dt m =>
      rw [collect]
      split
      · next hc =>
        apply ih
        have hlt : batch.length < BATCH_SIZE := hc.1
        simp only [List.length_append, List.length_cons, List.length_nil]
        omega
      · exact h

/-- On a valid trace, the elapsed time at which the collection loop exits
stays strictly below BATCH_TIMEOUT + 0.1 whenever it starts below that
bound: each wait consumes at most max(0.1, BATCH_TIMEOUT - t), and the
loop only continues while t < BATCH_TIMEOUT. -/
lemma collect_snd_lt (evs : List GetEv) :
    ∀ (t : ℚ) (batch : List ChunkData), validTrace evs t = true →
      t < BATCH_TIMEOUT + 1/10 → (collect evs t batch).2 < BATCH_TIMEOUT + 1/10 := by
  induction evs with
  | nil => intro t batch _ ht; simpa [collect] using ht
  | cons ev rest ih =>
    intro t batch hv ht
    cases ev with
    | timeout =>
      rw [collect]
      split
      · next hc =>
        have h2 : t < BATCH_TIMEOUT := hc.2
        simp only [waitTimeout, BATCH_TIMEOUT] at h2 ⊢
        rcases le_total ((1:ℚ)/10) (10 - t) with hm | hm
        · rw [max_eq_right hm]; linarith
        · rw [max_eq_left hm]; linarith
      · exact ht
    | item dt m =>
      rw [collect]
      split
      · next hc =>
        simp only [validTrace, Bool.and_eq_true, decide_eq_true_eq] at hv
        obtain ⟨⟨h0, hle⟩, hrest⟩ := hv
        apply ih _ _ hrest
        have h2 : t < BATCH_TIMEOUT := hc.2
        simp only [waitTimeout, BATCH_TIMEOUT] at hle h2 ⊢
        rcases le_total ((1:ℚ)/10) (10 - t) with hm | hm
        · rw [max_eq_right hm] at hle; linarith
        · rw [max_eq_left hm] at hle; linarith
      · exact ht

/-- Positional pairing of process_batch: the record at index i is built from
the message at index i and the response vector at index i. -/
lemma mkVectorData_getElem? :
    ∀ (messages : List ChunkData) (vs : List Vec) (i : Nat) (m : ChunkData) (v : Vec),
      messages[i]? = some m → vs[i]? = some v →
      (mkVectorData messages vs)[i]? = some (mkRecord m v)
  | [], _, i, _, _, hm, _ => by simp at hm
  | _ :: _, [], i, _, _, _, hv => by simp at hv
  | msg :: rest, e :: es, 0, m, v, hm, hv => by
    simp only [List.getElem?_cons_zero, Option.some.injEq] at hm hv
    subst hm; subst hv
    simp [mkVectorData]
  | msg :: rest, e :: es, i + 1, m, v, hm, hv => by
    simp only [List.getElem?_cons_succ] at hm hv
    simpa [mkVectorData] using mkVectorData_getElem? rest es i m v hm hv

end BatchProcessor

/-- Claim C1: if the embedding oracle returns a vector count different from
the chunk count, the whole batch is supposed to fail, producing no record
and staging no file. The code instead pairs messages with vectors through
Python zip, which silently truncates to the shorter list: here two chunks
meet a one-vector response, yet a record for the first chunk is produced
and a staged file holding it is written. -/
theorem c1_count_mismatch_not_failed :
    ([chunkA, chunkB].map ChunkData.text).length = 2
    ∧ ([[(1:ℚ)]] : List Vec).length = 1
    ∧ BatchProcessor.process_batch (fun _ => Except.ok [[(1:ℚ)]]) (fun _ => Except.ok ())
        [chunkA, chunkB] =
      some [{ id := "d_0", embedding := [(1:ℚ)],
              metadata := { docId := "d", sourceUri := "gs://b/o",
                            language := "en", chunkIndex := 0 } }] := by
  refine ⟨rfl, rfl, ?_⟩
  decide

/-- Claim C1 (amended): on any successful oracle response, regardless of the
vector count, process_batch zips messages with vectors positionally,
produces min(chunks, vectors) records and stages exactly those records; a
count mismatch is not detected and does not fail the batch. -/
theorem c1_amended_zip_truncates
    (oracle : List String → Except String (List Vec))
    (upload : List VectorRecord → Except String Unit)
    (messages : List ChunkData) (vs : List Vec)
    (hok : oracle (messages.map ChunkData.text) = Except.ok vs)
    (hup : upload (BatchProcessor.mkVectorData messages vs) = Except.ok ()) :
    BatchProcessor.process_batch oracle upload messages =
      some (BatchProcessor.mkVectorData messages vs)
    ∧ (BatchProcessor.mkVectorData messages vs).length = min messages.length vs.length := by
  constructor
  · simp [BatchProcessor.process_batch, hok, hup]
  · simp [BatchProcessor.mkVectorData]

/-- Witness for c1_amended_zip_truncates at a concrete mismatched input:
two chunks, one response vector, one staged record. -/
theorem c1_amended_zip_truncates_witness :
    BatchProcessor.process_batch (fun _ => Except.ok [[(1:ℚ)]]) (fun _ => Except.ok ())
        [chunkA, chunkB] =
      some (BatchProcessor.mkVectorData [chunkA, chunkB] [[(1:ℚ)]])
    ∧ (BatchProcessor.mkVectorData [chunkA, chunkB] [[(1:ℚ)]]).length =
        min ([chunkA, chunkB] : List ChunkData).length ([[(1:ℚ)]] : List Vec).length :=
  c1_amended_zip_truncates (fun _ => Except.ok [[(1:ℚ)]]) (fun _ => Except.ok ())
    [chunkA, chunkB] [[(1:ℚ)]] rfl rfl

/-- Claim C2: every batch flushed by one pass of the run loop is non-empty
and holds at most BATCH_SIZE items, and an empty collection window flushes
nothing at all. -/
theorem c2_flushed_batch_bounds :
    (∀ (evs : List GetEv) (B : List ChunkData),
        BatchProcessor.flushedBatch evs = some B →
        0 < B.length ∧ B.length ≤ BATCH_SIZE)
    ∧ ∀ evs : List GetEv,
        (BatchProcessor.collect evs 0 []).1 = [] →
        BatchProcessor.flushedBatch evs = none := by
  constructor
  · intro evs B h
    have hlen := BatchProcessor.collect_fst_length_le evs 0 [] (by simp [BATCH_SIZE])
    by_cases hb : (BatchProcessor.collect evs 0 []).1.isEmpty
    · simp [BatchProcessor.flushedBatch, hb] at h
    · simp only [BatchProcessor.flushedBatch, hb, Bool.false_eq_true, if_false,
        Option.some.injEq] at h
      subst h
      refine ⟨?_, hlen⟩
      have := List.isEmpty_iff_length_eq_zero.not.mp hb
      omega
  · intro evs h
    simp [BatchProcessor.flushedBatch, h]

/-- Witness for c2_flushed_batch_bounds: a window that received one item
flushes a singleton batch within bounds, and a window that only timed out
flushes nothing. -/
theorem c2_flushed_batch_bounds_witness :
    (0 < ([chunkA] : List ChunkData).length ∧ ([chunkA] : List ChunkData).length ≤ BATCH_SIZE)
    ∧ BatchProcessor.flushedBatch [GetEv.timeout] = none :=
  ⟨c2_flushed_batch_bounds.1 [GetEv.item 0 chunkA] [chunkA]
      (by norm_num [BatchProcessor.flushedBatch, BatchProcessor.collect,
        BatchProcessor.waitTimeout, BATCH_TIMEOUT, BATCH_SIZE]),
    c2_flushed_batch_bounds.2 [GetEv.timeout]
      (by norm_num [BatchProcessor.collect, BATCH_TIMEOUT, BATCH_SIZE])⟩

/-- Claim C3: when the oracle returns exactly one vector per chunk, the
embedder produces exactly n records in input order, record i carrying the
chunkId of chunk i, vector i, and the metadata copied from chunk i; the
oracle is invoked on exactly the batch texts in arrival order and the full
record list is what gets staged. -/
theorem c3_records_positional (messages : List ChunkData) (vs : List Vec)
    (h : vs.length = messages.length) :
    (BatchProcessor.mkVectorData messages vs).length = messages.length
    ∧ (∀ (i : Nat) (m : ChunkData) (v : Vec),
        messages[i]? = some m → vs[i]? = some v →
        (BatchProcessor.mkVectorData messages vs)[i]? = some
          { id := m.chunkId, embedding := v,
            metadata := { docId := m.docId, sourceUri := m.sourceUri,
                          language := m.language, chunkIndex := m.chunkIndex } })
    ∧ ∀ (oracle : List String → Except String (List Vec))
        (upload : List VectorRecord → Except String Unit),
        oracle (messages.map ChunkData.text) = Except.ok vs →
        upload (BatchProcessor.mkVectorData messages vs) = Except.ok () →
        BatchProcessor.process_batch oracle upload messages =
          some (BatchProcessor.mkVectorData messages vs) := by
  refine ⟨?_, ?_, ?_⟩
  · simp [BatchProcessor.mkVectorData, h]
  · intro i m v hm hv
    simpa [BatchProcessor.mkRecord] using
      BatchProcessor.mkVectorData_getElem? messages vs i m v hm hv
  · intro oracle upload hok hup
    simp [BatchProcessor.process_batch, hok, hup]

/-- Witness for c3_records_positional on a concrete two-chunk batch with a
matching two-vector response. -/
theorem c3_records_positional_witness :
    (BatchProcessor.mkVectorData [chunkA, chunkB] [[(1:ℚ)], [(2:ℚ)]]).length =
      ([chunkA, chunkB] : List ChunkData).length
    ∧ (BatchProcessor.mkVectorData [chunkA, chunkB] [[(1:ℚ)], [(2:ℚ)]])[1]? = some
        { id := chunkB.chunkId, embedding := [(2:ℚ)],
          metadata := { docId := chunkB.docId, sourceUri := chunkB.sourceUri,
                        language := chunkB.language, chunkIndex := chunkB.chunkIndex } } :=
  ⟨(c3_records_positional [chunkA, chunkB] [[(1:ℚ)], [(2:ℚ)]] rfl).1,
    (c3_records_positional [chunkA, chunkB] [[(1:ℚ)], [(2:ℚ)]] rfl).2.1 1 chunkB [(2:ℚ)]
      (by decide) (by decide)⟩

/-- Claim C10: staging is all-or-nothing per batch. If the oracle call
raises, nothing is staged; whenever something is staged it is the single
complete record list assembled from the batch, serialized one record per
line, and it holds one record per chunk whenever the response count
matches. -/
theorem c10_staging_atomic
    (oracle : List String → Except String (List Vec))
    (upload : List VectorRecord → Except String Unit)
    (messages : List ChunkData) (dumps : VectorRecord → String) :
    (∀ e, oracle (messages.map ChunkData.text) = Except.error e →
        BatchProcessor.process_batch oracle upload messages = none)
    ∧ ∀ staged, BatchProcessor.process_batch oracle upload messages = some staged →
        ∃ vs, oracle (messages.map ChunkData.text) = Except.ok vs
          ∧ staged = BatchProcessor.mkVectorData messages vs
          ∧ upload staged = Except.ok ()
          ∧ BatchProcessor.save_vector_batch dumps staged =
              String.intercalate "\n" (staged.map dumps)
          ∧ (vs.length = messages.length → staged.length = messages.length) := by
  constructor
  · intro e he
    simp [BatchProcessor.process_batch, he]
  · intro staged hst
    unfold BatchProcessor.process_batch at hst
    cases horacle : oracle (messages.map ChunkData.text) with
    | error e => rw [horacle] at hst; simp at hst
    | ok vs =>
      rw [horacle] at hst
      simp only at hst
      cases hup : upload (BatchProcessor.mkVectorData messages vs) with
      | error e => rw [hup] at hst; simp at hst
      | ok u =>
        rw [hup] at hst
        simp only [Option.some.injEq] at hst
        subst hst
        exact ⟨vs, rfl, rfl, hup, rfl, by
          intro hl
          simp [BatchProcessor.mkVectorData, hl]⟩

/-- Witness for c10_staging_atomic: an erroring oracle stages nothing, and a
successful oracle stages the complete assembled record list. -/
theorem c10_staging_atomic_witness :
    BatchProcessor.process_batch (fun _ => Except.error "boom") (fun _ => Except.ok ())
      [chunkA, chunkB] = none
    ∧ ∃ vs, (fun (_ : List String) => Except.ok (ε := String) [[(1:ℚ)], [(2:ℚ)]])
          ([chunkA, chunkB].map ChunkData.text) = Except.ok vs
        ∧ BatchProcessor.mkVectorData [chunkA, chunkB] [[(1:ℚ)], [(2:ℚ)]] =
            BatchProcessor.mkVectorData [chunkA, chunkB] vs
        ∧ (fun (_ : List VectorRecord) => Except.ok (ε := String) ())
            (BatchProcessor.mkVectorData [chunkA, chunkB] [[(1:ℚ)], [(2:ℚ)]]) = Except.ok ()
        ∧ BatchProcessor.save_vector_batch (fun r => r.id)
            (BatchProcessor.mkVectorData [chunkA, chunkB] [[(1:ℚ)], [(2:ℚ)]]) =
            String.intercalate "\n"
              ((BatchProcessor.mkVectorData [chunkA, chunkB] [[(1:ℚ)], [(2:ℚ)]]).map
                fun r => r.id)
        ∧ (vs.length = ([chunkA, chunkB] : List ChunkData).length →
            (BatchProcessor.mkVectorData [chunkA, chunkB] [[(1:ℚ)], [(2:ℚ)]]).length =
              ([chunkA, chunkB] : List ChunkData).length) := by
  constructor
  · exact (c10_staging_atomic (fun _ => Except.error "boom") (fun _ => Except.ok ())
      [chunkA, chunkB] (fun r => r.id)).1 "boom" rfl
  · obtain ⟨vs, h1, h2, h3, h4, h5⟩ :=
      (c10_staging_atomic (fun _ => Except.ok [[(1:ℚ)], [(2:ℚ)]])
        (fun _ => Except.ok ()) [chunkA, chunkB] (fun r => r.id)).2
        (BatchProcessor.mkVectorData [chunkA, chunkB] [[(1:ℚ)], [(2:ℚ)]]) (by decide)
    exact ⟨vs, h1, by rw [← h2], h3, h4, h5⟩

/-- Claim C6: shutdown is supposed to flush and process every buffered item
before the component closes. In the code, stop only clears the running
flag; an interleaving in which a message is enqueued and stop runs before
the loop re-checks the flag ends with the item still sitting in the queue
and an empty list of flushed batches: the accepted item is never processed. -/
theorem c6_shutdown_drops_buffered_item :
    BatchProcessor.runSchedule
        [BatchProcessor.Action.enqueue chunkA, BatchProcessor.Action.stopSignal,
          BatchProcessor.Action.iterate] =
      ({ queue := [chunkA], running := false }, []) := by
  decide

/-- Claim C6 (amended): stop only clears the running flag; once the flag is
false the loop body flushes nothing and leaves the queue untouched, so
items still buffered at shutdown are abandoned rather than flushed. -/
theorem c6_amended_stop_only_clears_flag (s : ProcState) (out : List (List ChunkData))
    (h : s.running = false) :
    BatchProcessor.step (s, out) BatchProcessor.Action.iterate = (s, out)
    ∧ (BatchProcessor.stop s).queue = s.queue
    ∧ (BatchProcessor.stop s).running = false := by
  refine ⟨?_, rfl, rfl⟩
  simp [BatchProcessor.step, h]

/-- Witness for c6_amended_stop_only_clears_flag at a concrete stopped state
holding one buffered item. -/
theorem c6_amended_stop_only_clears_flag_witness :
    BatchProcessor.step ({ queue := [chunkA], running := false }, [])
        BatchProcessor.Action.iterate = ({ queue := [chunkA], running := false }, [])
    ∧ (BatchProcessor.stop { queue := [chunkA], running := false }).queue = [chunkA]
    ∧ (BatchProcessor.stop { queue := [chunkA], running := false }).running = false :=
  c6_amended_stop_only_clears_flag { queue := [chunkA], running := false } [] rfl

/-- Claim C8: a non-empty window is supposed to flush no later than
BATCH_TIMEOUT seconds after its oldest member arrived. On the valid trace
lateTrace the oldest item arrives the instant the window opens, yet the
flush decision is taken at elapsed time 10.05 seconds, because the wait_for
timeout has a 0.1-second floor: the third get is granted 0.1 seconds even
though only 0.05 seconds of the window remain. -/
theorem c8_flush_can_exceed_timeout :
    BatchProcessor.validTrace lateTrace 0 = true
    ∧ BatchProcessor.firstItemTime lateTrace 0 = some 0
    ∧ BatchProcessor.flushTime lateTrace = 201/20
    ∧ ¬ (BatchProcessor.flushTime lateTrace ≤ 0 + BATCH_TIMEOUT) := by
  refine ⟨?_, ?_, ?_, ?_⟩
  · norm_num [lateTrace, BatchProcessor.validTrace, BatchProcessor.waitTimeout, BATCH_TIMEOUT]
  · norm_num [lateTrace, BatchProcessor.firstItemTime]
  · norm_num [lateTrace, BatchProcessor.flushTime, BatchProcessor.collect,
      BatchProcessor.waitTimeout, BATCH_TIMEOUT, BATCH_SIZE]
  · norm_num [lateTrace, BatchProcessor.flushTime, BatchProcessor.collect,
      BatchProcessor.waitTimeout, BATCH_TIMEOUT, BATCH_SIZE]

/-- Claim C8 (amended): on every valid queue trace the flush decision is
taken strictly within BATCH_TIMEOUT + 0.1 seconds of the window opening,
and hence strictly within BATCH_TIMEOUT + 0.1 seconds of the oldest
member's arrival; the extra 0.1 seconds is the floor the code puts under
the wait_for timeout. -/
theorem c8_amended_flush_within_timeout_plus_floor (evs : List GetEv)
    (h : BatchProcessor.validTrace evs 0 = true) :
    BatchProcessor.flushTime evs < BATCH_TIMEOUT + 1/10
    ∧ ∀ a, BatchProcessor.firstItemTime evs 0 = some a →
        BatchProcessor.flushTime evs < a + (BATCH_TIMEOUT + 1/10) := by
  have h1 := BatchProcessor.collect_snd_lt evs 0 [] h (by norm_num [BATCH_TIMEOUT])
  refine ⟨h1, ?_⟩
  intro a ha
  have h0 : 0 ≤ a := by
    cases evs with
    | nil => simp [BatchProcessor.firstItemTime] at ha
    | cons ev rest =>
      cases ev with
      | timeout => simp [BatchProcessor.firstItemTime] at ha
      | item dt m =>
        simp only [BatchProcessor.firstItemTime, zero_add, Option.some.injEq] at ha
        simp only [BatchProcessor.validTrace, Bool.and_eq_true, decide_eq_true_eq] at h
        obtain ⟨⟨hd, _⟩, _⟩ := h
        subst ha
        exact hd
  exact lt_of_lt_of_le h1 (by linarith)

/-- Witness for c8_amended_flush_within_timeout_plus_floor on a concrete
valid trace consisting of a single timeout. -/
theorem c8_amended_flush_within_timeout_plus_floor_witness :
    BatchProcessor.validTrace [GetEv.timeout] 0 = true
    ∧ BatchProcessor.flushTime [GetEv.timeout] < BATCH_TIMEOUT + 1/10
    ∧ ∀ a, BatchProcessor.firstItemTime [GetEv.timeout] 0 = some a →
        BatchProcessor.flushTime [GetEv.timeout] < a + (BATCH_TIMEOUT + 1/10) :=
  ⟨rfl, (c8_amended_flush_within_timeout_plus_floor [GetEv.timeout] rfl).1,
    (c8_amended_flush_within_timeout_plus_floor [GetEv.timeout] rfl).2⟩

/-- When no exception occurs while iterating the generation stream, the
emitted events are the non-empty fragments followed by exactly one terminal
done event, and the generator completes. -/
lemma generate_events_ok :
    ∀ (gs : List GenItem) (srcs : List SourceEntry) (ver : String),
      GenItem.raiseEv ∉ gs →
      ∃ frags, generate_events gs srcs ver = (frags ++ [Event.final srcs ver], true)
        ∧ ∀ e ∈ frags, ∃ s, e = Event.chunk s
  | [], srcs, ver, _ => ⟨[], by simp [generate_events]⟩
  | GenItem.raiseEv :: rest, _, _, h => absurd (List.mem_cons_self _ _) h
  | GenItem.piece t :: rest, srcs, ver, h => by
    have h2 : GenItem.raiseEv ∉ rest := fun hr => h (List.mem_cons_of_mem _ hr)
    obtain ⟨frags, heq, hall⟩ := generate_events_ok rest srcs ver h2
    by_cases ht : t = ""
    · exact ⟨frags, by simp [generate_events, ht, heq], hall⟩
    · refine ⟨Event.chunk t :: frags, by simp [generate_events, ht, heq], ?_⟩
      intro e he
      rcases List.mem_cons.mp he with rfl | he2
      · exact ⟨t, rfl⟩
      · exact hall e he2

/-- When an exception is raised while iterating the generation stream, the
generator aborts: it does not complete, and every event it emitted is a
plain text fragment, so no terminal event and no error event of any kind
closes the stream. -/
lemma generate_events_raise :
    ∀ (gs : List GenItem) (srcs : List SourceEntry) (ver : String),
      GenItem.raiseEv ∈ gs →
      (generate_events gs srcs ver).2 = false
        ∧ ∀ e ∈ (generate_events gs srcs ver).1, ∃ s, e = Event.chunk s
  | [], _, _, h => absurd h (List.not_mem_nil _)
  | GenItem.raiseEv :: rest, srcs, ver, _ => by simp [generate_events]
  | GenItem.piece t :: rest, srcs, ver, h => by
    have h2 : GenItem.raiseEv ∈ rest := by
      rcases List.mem_cons.mp h with hh | hh
      · exact absurd hh (by simp)
      · exact hh
    obtain ⟨hsnd, hall⟩ := generate_events_raise rest srcs ver h2
    constructor
    · simp [generate_events, hsnd]
    · intro e he
      simp only [generate_events] at he
      by_cases ht : t = ""
      · rw [if_pos ht] at he
        exact hall e he
      · rw [if_neg ht] at he
        rcases List.mem_cons.mp he with rfl | he2
        · exact ⟨t, rfl⟩
        · exact hall e he2

/-- Hydration accounting: the retrieved chunks plus the neighbors whose
metadata lookup missed sum to all neighbors. -/
lemma retrieve_chunks_length (store : String → Option StoredChunk) :
    ∀ neighbors : List Neighbor,
      (retrieve_chunks store neighbors).length
        + (neighbors.filter fun nb => (store nb.id).isNone).length
        = neighbors.length
  | [] => by simp [retrieve_chunks]
  | nb :: rest => by
    have ih := retrieve_chunks_length store rest
    simp only [retrieve_chunks] at ih ⊢
    cases h : store nb.id with
    | none =>
      simp [List.filterMap_cons, List.filter_cons, h]
      omega
    | some d =>
      simp [List.filterMap_cons, List.filter_cons, h]
      omega

/-- Every hydrated chunk originates from some neighbor whose lookup hit,
and carries relevance score 1 - distance of that neighbor. -/
lemma retrieve_chunks_mem (store : String → Option StoredChunk) (neighbors : List Neighbor)
    (c : RetrievedChunk) (hc : c ∈ retrieve_chunks store neighbors) :
    ∃ nb ∈ neighbors, store nb.id = some c.data ∧ c.relevance_score = 1 - nb.distance := by
  simp only [retrieve_chunks, List.mem_filterMap] at hc
  obtain ⟨nb, hnb, hf⟩ := hc
  cases h : store nb.id with
  | none => simp [h] at hf
  | some d =>
    simp only [h] at hf
    have hf2 : ({ data := d, relevance_score := 1 - nb.distance } : RetrievedChunk) = c := by
      simpa using hf
    subst hf2
    exact ⟨nb, hnb, h, rfl⟩

/-- A concrete embedding oracle for witnesses. -/
def wEmbed : String → Vec := fun _ => []

/-- A concrete search oracle for witnesses: three neighbors at distances 0,
0.5 and 0.25. -/
def wSearch : Vec → Nat → List Neighbor := fun _ _ =>
  [{ id := "a", distance := 0 }, { id := "b", distance := 1/2 },
    { id := "c", distance := 1/4 }]

/-- A concrete metadata store for witnesses: the record for id b is absent. -/
def wStore : String → Option StoredChunk := fun i =>
  if i = "b" then none
  else some { docId := "d", text := "t" ++ i, sourceUri := "u" ++ i,
              language := "en", chunkIndex := 0 }

/-- A concrete prompt template for witnesses. -/
def wTmpl : PromptTemplate := { version := "1.0.0", template := "T" }

/-- A concrete format substitution for witnesses. -/
def wFormat : String → String → String → String := fun t _ _ => t

/-- A concrete generation oracle for witnesses: one fragment, no failure. -/
def wGen : String → ℚ → List GenItem := fun _ _ => [GenItem.piece "x"]

/-- A concrete query request for witnesses. -/
def wReq : QueryRequest := { question := "q", max_results := 3, temperature := 7/10 }

/-- Claim C4: a query whose vector search returns zero neighbors is answered
immediately with the fixed no-relevant-information answer, an empty sources
list and the current prompt version, and the outcome does not depend on the
generation oracle, which is therefore never consulted. -/
theorem c4_zero_neighbors_short_circuit
    (embed : String → Vec) (search : Vec → Nat → List Neighbor)
    (store : String → Option StoredChunk) (tmpl : PromptTemplate)
    (format : String → String → String → String)
    (g1 g2 : String → ℚ → List GenItem) (req : QueryRequest)
    (h : search (embed req.question) req.max_results = []) :
    query_rag embed search store tmpl format g1 req =
      QueryOutcome.response
        { answer := noRelevantInfoAnswer, sources := [], prompt_version := tmpl.version }
    ∧ query_rag embed search store tmpl format g1 req =
        query_rag embed search store tmpl format g2 req := by
  constructor <;> simp [query_rag, h]

/-- Witness for c4_zero_neighbors_short_circuit with a concrete empty search
result and two generation oracles that differ everywhere. -/
theorem c4_zero_neighbors_short_circuit_witness :
    query_rag (fun _ => []) (fun _ _ => []) (fun _ => none)
        { version := "1.0.0", template := "T" } (fun t _ _ => t)
        (fun _ _ => [GenItem.piece "a"])
        { question := "q", max_results := 5, temperature := 7/10 } =
      QueryOutcome.response
        { answer := noRelevantInfoAnswer, sources := [],
          prompt_version := ("1.0.0" : String) }
    ∧ query_rag (fun _ => []) (fun _ _ => []) (fun _ => none)
        { version := "1.0.0", template := "T" } (fun t _ _ => t)
        (fun _ _ => [GenItem.piece "a"])
        { question := "q", max_results := 5, temperature := 7/10 } =
      query_rag (fun _ => []) (fun _ _ => []) (fun _ => none)
        { version := "1.0.0", template := "T" } (fun t _ _ => t)
        (fun _ _ => [GenItem.raiseEv])
        { question := "q", max_results := 5, temperature := 7/10 } :=
  c4_zero_neighbors_short_circuit (fun _ => []) (fun _ _ => []) (fun _ => none)
    { version := "1.0.0", template := "T" } (fun t _ _ => t)
    (fun _ _ => [GenItem.piece "a"]) (fun _ _ => [GenItem.raiseEv])
    { question := "q", max_results := 5, temperature := 7/10 } rfl

/-- Claim C5: with k neighbors of which m lack a metadata record, the query
still succeeds: exactly k - m chunks are hydrated in neighbor-rank order,
each carrying relevance score 1 - distance of its neighbor, the context is
their Source-tagged blocks joined by a blank line, and the terminal event
of the stream lists exactly those k - m sources. -/
theorem c5_missing_metadata_skipped
    (embed : String → Vec) (search : Vec → Nat → List Neighbor)
    (store : String → Option StoredChunk) (tmpl : PromptTemplate)
    (format : String → String → String → String)
    (gen : String → ℚ → List GenItem) (req : QueryRequest)
    (hne : search (embed req.question) req.max_results ≠ [])
    (hok : ∀ p temp, GenItem.raiseEv ∉ gen p temp) :
    (retrieve_chunks store (search (embed req.question) req.max_results)).length
      + ((search (embed req.question) req.max_results).filter
          fun nb => (store nb.id).isNone).length
      = (search (embed req.question) req.max_results).length
    ∧ (∀ c ∈ retrieve_chunks store (search (embed req.question) req.max_results),
        ∃ nb ∈ search (embed req.question) req.max_results,
          store nb.id = some c.data ∧ c.relevance_score = 1 - nb.distance)
    ∧ build_context (retrieve_chunks store (search (embed req.question) req.max_results))
        = String.intercalate "\n\n"
          ((retrieve_chunks store (search (embed req.question) req.max_results)).map
            fun c => "[Source: " ++ c.data.sourceUri ++ "]\n" ++ c.data.text)
    ∧ ∃ frags,
        query_rag embed search store tmpl format gen req =
          QueryOutcome.streamed
            (frags ++ [Event.final
              (final_sources
                (retrieve_chunks store (search (embed req.question) req.max_results)))
              tmpl.version]) true
        ∧ (∀ e ∈ frags, ∃ s, e = Event.chunk s)
        ∧ (final_sources
            (retrieve_chunks store (search (embed req.question) req.max_results))).length
          = (retrieve_chunks store (search (embed req.question) req.max_results)).length := by
  refine ⟨retrieve_chunks_length store _, retrieve_chunks_mem store _, rfl, ?_⟩
  obtain ⟨frags, heq, hall⟩ := generate_events_ok
    (gen (format tmpl.template
      (build_context (retrieve_chunks store (search (embed req.question) req.max_results)))
      req.question) req.temperature)
    (final_sources (retrieve_chunks store (search (embed req.question) req.max_results)))
    tmpl.version (hok _ _)
  refine ⟨frags, ?_, hall, by simp [final_sources]⟩
  simp only [query_rag, List.isEmpty_iff, hne, if_false]
  rw [heq]

/-- Witness for c5_missing_metadata_skipped: three neighbors, the middle
lookup misses, two chunks and two terminal sources remain. -/
theorem c5_missing_metadata_skipped_witness :
    (retrieve_chunks wStore (wSearch (wEmbed wReq.question) wReq.max_results)).length
      + ((wSearch (wEmbed wReq.question) wReq.max_results).filter
          fun nb => (wStore nb.id).isNone).length
      = (wSearch (wEmbed wReq.question) wReq.max_results).length :=
  (c5_missing_metadata_skipped wEmbed wSearch wStore wTmpl wFormat wGen wReq
    (by decide) (by intro p temp; simp [wGen])).1

/-- Claim C7: the answer stream is fragments followed by exactly one
terminal event, and a mid-stream generation failure is supposed to be
surfaced as an explicit error event in place of the terminal event. The
generate sub-routine has no exception handler: on this concrete query the
oracle yields one fragment and then raises, and the resulting stream is the
lone fragment with no terminal event and no error event of any kind - the
stream is silently truncated. -/
theorem c7_midstream_failure_truncates_silently :
    query_rag (fun _ => []) (fun _ _ => [{ id := "c1", distance := 0 }])
        (fun _ => some { docId := "d", text := "t", sourceUri := "u",
                         language := "en", chunkIndex := 0 })
        { version := "1.0.0", template := "T" } (fun t _ _ => t)
        (fun _ _ => [GenItem.piece "a", GenItem.raiseEv])
        { question := "q", max_results := 1, temperature := 7/10 } =
      QueryOutcome.streamed [Event.chunk "a"] false := by
  rfl

/-- Claim C7 (amended): when iterating the generation stream raises no
exception, the emitted events are the non-empty fragments followed by
exactly one terminal event carrying the sources and prompt version; when it
raises mid-stream, the generator stops incomplete and every emitted event
is a plain fragment, so the stream is truncated with neither a terminal
event nor an error event. -/
theorem c7_amended_stream_shape (gs : List GenItem) (srcs : List SourceEntry) (ver : String) :
    (GenItem.raiseEv ∉ gs →
      ∃ frags, generate_events gs srcs ver = (frags ++ [Event.final srcs ver], true)
        ∧ ∀ e ∈ frags, ∃ s, e = Event.chunk s)
    ∧ (GenItem.raiseEv ∈ gs →
      (generate_events gs srcs ver).2 = false
        ∧ ∀ e ∈ (generate_events gs srcs ver).1, ∃ s, e = Event.chunk s) :=
  ⟨generate_events_ok gs srcs ver, generate_events_raise gs srcs ver⟩

/-- Witness for c7_amended_stream_shape: a clean one-fragment stream gets
its terminal event, and a stream that raises immediately emits only
fragments and never completes. -/
theorem c7_amended_stream_shape_witness :
    (∃ frags, generate_events [GenItem.piece "x"] [] "1.0.0" =
        (frags ++ [Event.final [] "1.0.0"], true)
      ∧ ∀ e ∈ frags, ∃ s, e = Event.chunk s)
    ∧ ((generate_events [GenItem.raiseEv] [] "1.0.0").2 = false
      ∧ ∀ e ∈ (generate_events [GenItem.raiseEv] [] "1.0.0").1, ∃ s, e = Event.chunk s) :=
  ⟨(c7_amended_stream_shape [GenItem.piece "x"] [] "1.0.0").1 (by decide),
    (c7_amended_stream_shape [GenItem.raiseEv] [] "1.0.0").2 (by decide)⟩

/-- Claim C9: chunking is deterministic and idempotent. The chunk texts of a
processed document are exactly the splitter output for (text, detected
language); every stamped chunk carries zero-based chunkIndex equal to its
position, docId equal to the md5 hex of bucket/blob, and chunkId equal to
docId followed by an underscore and the decimal chunkIndex; and re-running
process_document on the same input is the same pure function application,
so it yields the identical chunk sequence and identical chunkIds. -/
theorem c9_chunking_deterministic (split_text : Nat → Nat → String → List String)
    (det : String → Option String) (md5hex : String → String)
    (bucket_name blob_name full_text : String) :
    (process_document split_text det md5hex bucket_name blob_name full_text).map
        ChunkData.text
      = chunk_text split_text full_text (detect_language det full_text)
    ∧ (∀ (i : Nat) (cd : ChunkData),
        (process_document split_text det md5hex bucket_name blob_name full_text)[i]? =
            some cd →
        cd.chunkIndex = i
        ∧ cd.docId = md5hex (bucket_name ++ "/" ++ blob_name)
        ∧ cd.chunkId = cd.docId ++ "_" ++ toString cd.chunkIndex
        ∧ cd.chunkId = md5hex (bucket_name ++ "/" ++ blob_name) ++ "_" ++ toString i)
    ∧ process_document split_text det md5hex bucket_name blob_name full_text
      = process_document split_text det md5hex bucket_name blob_name full_text := by
  refine ⟨?_, ?_, rfl⟩
  · simp only [process_document, List.map_map]
    exact List.enum_map_snd _
  · intro i cd hcd
    simp only [process_document, List.getElem?_map, List.getElem?_enum] at hcd
    cases hc : (chunk_text split_text full_text (detect_language det full_text))[i]? with
    | none => rw [hc] at hcd; simp at hcd
    | some c =>
      rw [hc] at hcd
      simp only [Option.map_some', Option.some.injEq] at hcd
      subst hcd
      exact ⟨rfl, rfl, rfl, rfl⟩

/-- The single chunk stamped by the concrete one-piece run of
process_document used as the C9 witness input. -/
def cdW : ChunkData :=
  { docId := "b/o.pdf", chunkId := "b/o.pdf_0", sourceUri := "gs://b/o.pdf"
    text := "hello", language := "en", chunkIndex := 0, totalChunks := 1 }

/-- Witness for c9_chunking_deterministic: a one-piece document whose only
chunk is stamped with index 0 and chunkId docId_0. -/
theorem c9_chunking_deterministic_witness :
    cdW.chunkIndex = 0
    ∧ cdW.docId = (fun (s : String) => s) ("b" ++ "/" ++ "o.pdf")
    ∧ cdW.chunkId = cdW.docId ++ "_" ++ toString cdW.chunkIndex
    ∧ cdW.chunkId = (fun (s : String) => s) ("b" ++ "/" ++ "o.pdf") ++ "_" ++
        toString (0 : Nat) :=
  (c9_chunking_deterministic (fun _ _ t => [t]) (fun _ => some "en") (fun s => s)
    "b" "o.pdf" "hello").2.1 0 cdW (by decide)

end RagIep
